import Mathlib

/-!
Verification of the resilient invocation layer in
`packages/bytebot-agent/src/agent/agent.processor.ts` (class `AgentProcessor`):
the retry executor `generateWithRetry`, the retry-metadata parser
`extractRetryDelay`, and the orchestrator `runIteration`.

The embedding is a shallow one: the provider (`this.service.generateMessage`)
is an oracle mapping the attempt number to a success value or a failure, and
each executor run produces a trace recording its outcome, the sleeps it
performed (in milliseconds, in order), the number of provider invocations,
and the value of the `delay` variable at the top of every loop iteration.
-/

namespace Bytebot

/-- One entry of the `error.details` array scanned by `extractRetryDelay`.
`atType` models the `@type` field; `retryDelay` the optional retry-delay
string (`none` models an absent field, and the empty string is falsy in
JavaScript, which the extraction honours). -/
structure RetryInfoDetail where
  atType : String
  retryDelay : Option String
  deriving DecidableEq

/-- A provider failure as inspected by `generateWithRetry`: `code` and
`status` model `error?.code` and `error?.status` (absent fields are `none`,
and the code 0 is falsy in JavaScript), `details` models `error?.details`
(an absent array behaves like an empty one), `message` the error message. -/
structure ProviderError where
  code : Option Nat
  status : Option Nat
  details : List RetryInfoDetail
  message : String
  deriving DecidableEq

/-- JavaScript `x || y` on two optional numeric fields: `x` wins unless it
is absent or 0 (both falsy). Models `error?.code || error?.status`. -/
def jsOrOpt (x y : Option Nat) : Option Nat :=
  match x with
  | some n => if n = 0 then y else some n
  | none => y

/-- The effective code tested by the retry loop: `error?.code || error?.status`. -/
def effCode (e : ProviderError) : Option Nat :=
  jsOrOpt e.code e.status

/-- Classification of a provider failure as performed by the `catch` block of
`generateWithRetry`: 429 is rate limiting, [500, 600) is a transient server
error, everything else (including an absent code) is fatal. -/
inductive ErrorClass where
  | rateLimited
  | transient
  | fatal
  deriving DecidableEq

/-- The classification implicit in the if-chain of `generateWithRetry`:
`code === 429`, then `code >= 500 && code < 600`, else fatal. -/
def classify (e : ProviderError) : ErrorClass :=
  match effCode e with
  | none => .fatal
  | some c =>
    if c = 429 then .rateLimited
    else if 500 ≤ c ∧ c < 600 then .transient
    else .fatal

/-- A failure whose classification lets the loop retry. -/
def retryable (e : ProviderError) : Prop :=
  classify e = .rateLimited ∨ classify e = .transient

/-- Whitespace skipped by JavaScript `parseInt`. -/
def isJsSpace (c : Char) : Bool :=
  c = ' ' || c = '\t' || c = '\n' || c = '\r'

/-- The longest all-digit prefix of a character list (what `parseInt`
consumes after sign handling). -/
def leadingDigits : List Char → List Char
  | [] => []
  | c :: rest => if c.isDigit then c :: leadingDigits rest else []

/-- Decimal value of a digit list. -/
def digitsToNat (ds : List Char) : Nat :=
  List.foldl (fun a c => a * 10 + (c.toNat - 48)) 0 ds

/-- Digit consumption of `parseInt`: `none` when no leading digit exists
(JavaScript `NaN`). -/
def parseDigits (cs : List Char) : Option Nat :=
  match leadingDigits cs with
  | [] => none
  | ds => some (digitsToNat ds)

/-- JavaScript `parseInt(s, 10)`: skip leading whitespace, optional sign,
then the longest digit prefix; `none` models `NaN`. -/
def jsParseInt (s : String) : Option Int :=
  match s.data.dropWhile isJsSpace with
  | [] => none
  | c :: rest =>
    if c = '-' then (parseDigits rest).map (fun n => -(n : Int))
    else if c = '+' then (parseDigits rest).map (fun n => (n : Int))
    else (parseDigits (c :: rest)).map (fun n => (n : Int))

/-- JavaScript `String.prototype.replace('s', '')`: remove the first
occurrence of `'s'` only. -/
def stripFirstS : List Char → List Char
  | [] => []
  | c :: rest => if c = 's' then rest else c :: stripFirstS rest

/-- String form of `retryDelay.replace('s', '')`. -/
def stripS (s : String) : String :=
  ⟨stripFirstS s.data⟩

/-- The `@type` tag matched when searching `error.details`. -/
def RETRY_INFO_TYPE : String :=
  "type.googleapis.com/google.rpc.RetryInfo"

/-- Model of `extractRetryDelay(error)`: find the RetryInfo detail entry, read its
`retryDelay` string (a missing or empty string is falsy and yields `null`),
strip the first `'s'`, `parseInt` it, and map `NaN` to `null`. -/
def extractRetryDelay (e : ProviderError) : Option Int :=
  match e.details.find? (fun d => d.atType = RETRY_INFO_TYPE) with
  | none => none
  | some d =>
    match d.retryDelay with
    | none => none
    | some s =>
      if s = "" then none
      else jsParseInt (stripS s)

/-- JavaScript `x || y` where `x` is a nullable number: `y` wins when `x`
is `null` or `0`. Models `this.extractRetryDelay(error) || delay / 1000`. -/
def jsOrNum (x : Option Int) (y : Int) : Int :=
  match x with
  | some n => if n = 0 then y else n
  | none => y

/-- The backoff update `delay = Math.min(delay * 2, 60000)` applied after
every retryable failure. -/
def updateDelay (d : Nat) : Nat :=
  min (d * 2) 60000

/-- What `generateWithRetry` can throw: either a provider failure re-thrown
unmodified (the fatal path), or the fresh
`new Error('Max retries reached for LLM call')` — a distinct error by
construction. -/
inductive RetryError where
  | provider (e : ProviderError)
  | exhausted
  deriving DecidableEq

/-- Trace of one `generateWithRetry` run: its outcome, the sleeps performed
in order (milliseconds; an `Int` because a negative parsed retry delay is
passed to `setTimeout` as-is), the number of provider invocations, and the
value of `delay` at the top of each loop iteration. -/
structure RetryResult (α : Type) where
  outcome : Except RetryError α
  waits : List Int
  invocations : Nat
  delaysSeen : List Nat

/-- The `for (let attempt = 1; attempt <= maxRetries; attempt++)` loop of
`generateWithRetry`, recursing on the number of attempts still allowed
(`remaining = maxRetries - attempt + 1`). On success the response is
returned immediately; a rate-limited failure sleeps
`(extractRetryDelay(error) || delay / 1000) * 1000` ms; a transient failure
sleeps `delay` ms; both double `delay` capped at 60000; a fatal failure
re-throws the original error; falling off the loop throws the exhaustion
error. -/
def retryLoop {α : Type} (oracle : Nat → Except ProviderError α) :
    Nat → Nat → Nat → RetryResult α
  | _attempt, 0, _delay => ⟨.error .exhausted, [], 0, []⟩
  | attempt, remaining + 1, delay =>
    match oracle attempt with
    | .ok v => ⟨.ok v, [], 1, [delay]⟩
    | .error e =>
      match classify e with
      | .rateLimited =>
        let retryDelay : Int := jsOrNum (extractRetryDelay e) ((delay / 1000 : Nat) : Int)
        let rest := retryLoop oracle (attempt + 1) remaining (updateDelay delay)
        ⟨rest.outcome, retryDelay * 1000 :: rest.waits, rest.invocations + 1,
          delay :: rest.delaysSeen⟩
      | .transient =>
        let rest := retryLoop oracle (attempt + 1) remaining (updateDelay delay)
        ⟨rest.outcome, (delay : Int) :: rest.waits, rest.invocations + 1,
          delay :: rest.delaysSeen⟩
      | .fatal => ⟨.error (.provider e), [], 1, [delay]⟩

/-- Model of `generateWithRetry(systemPrompt, messages, modelName, isAgent,
signal, maxRetries)`: attempt 1 with `delay = 5000`, at most `maxRetries`
attempts. -/
def generateWithRetry {α : Type} (oracle : Nat → Except ProviderError α)
    (maxRetries : Nat) : RetryResult α :=
  retryLoop oracle 1 maxRetries 5000

/-- The default of the `maxRetries` parameter; both call sites in
`runIteration` rely on it. -/
def defaultMaxRetries : Nat := 10

/-- Modelled from the spec: the `Role` enumeration imported from
'../messages/entities' is not under src/; the spec fixes
role ∈ {user, assistant, system}. -/
inductive Role where
  | USER
  | ASSISTANT
  | SYSTEM
  deriving DecidableEq

/-- Modelled from the spec: `MessageContentType` from '../messages/entities'
is not under src/; only its `Text` member is used by this core. -/
inductive MessageContentType where
  | Text
  deriving DecidableEq

/-- One content block of a message, as built for the synthetic summary turn. -/
structure ContentBlock where
  type : MessageContentType
  text : String
  deriving DecidableEq

/-- A conversation turn with the fields the synthetic summary turn carries.
The source types `messages` as `any[]`; `runIteration` never inspects the
supplied turns — it only spreads them — so modelling them with this shape
loses nothing. `createdAt`/`updatedAt` model the `new Date()` timestamps. -/
structure Message where
  id : String
  createdAt : Nat
  updatedAt : Nat
  taskId : String
  summaryId : Option String
  role : Role
  content : List ContentBlock
  deriving DecidableEq

/-- Modelled from the spec: `AGENT_SYSTEM_PROMPT` is imported from
'./prompts', which is not under src/; the spec leaves prompt content out of
scope, so only its identity matters here. -/
def AGENT_SYSTEM_PROMPT : String := "AGENT_SYSTEM_PROMPT"

/-- Modelled from the spec: `SUMMARIZATION_SYSTEM_PROMPT` is imported from
'./prompts', which is not under src/; only its identity matters here. -/
def SUMMARIZATION_SYSTEM_PROMPT : String := "SUMMARIZATION_SYSTEM_PROMPT"

/-- The fixed text of the synthetic summary-request turn. -/
def summaryRequestText : String :=
  "Respond with a summary of the messages above. Do not include any additional information."

/-- The synthetic turn appended by `runIteration` when `shouldSummarize` is
true: empty id, fresh timestamps, the caller's `taskId`, `summaryId: null`,
`role: Role.USER`, and a single text block with the fixed request. -/
def syntheticSummaryTurn (taskId : String) (now : Nat) : Message :=
  { id := ""
    createdAt := now
    updatedAt := now
    taskId := taskId
    summaryId := none
    role := Role.USER
    content := [{ type := MessageContentType.Text, text := summaryRequestText }] }

/-- The `AbortController` held by the processor: an object identity plus its
monotonic aborted flag. The platform API offers no way to un-abort. -/
structure AbortController where
  id : Nat
  aborted : Bool
  deriving DecidableEq

/-- Model of `controller.abort()`: sets the flag, keeps the identity. -/
def AbortController.abort (c : AbortController) : AbortController :=
  ⟨c.id, true⟩

/-- The mutable state of an `AgentProcessor` instance: the field
`private abortController = new AbortController()` is its only state; the
class body never reassigns it. -/
structure AgentProcessor where
  abortController : AbortController
  deriving DecidableEq

/-- Construction of an `AgentProcessor`: one fresh, unaborted controller. -/
def AgentProcessor.new (freshId : Nat) : AgentProcessor :=
  ⟨⟨freshId, false⟩⟩

/-- The `model: any` argument of `runIteration`; only `model.name` is read. -/
structure ModelDescriptor where
  name : String
  deriving DecidableEq

/-- The argument tuple of one `this.service.generateMessage` /
`generateWithRetry` call: system prompt, messages, model name, the
`isAgent` flag, and the identity of the abort signal passed along. -/
structure CallArgs where
  systemPrompt : String
  messages : List Message
  modelName : String
  isAgent : Bool
  signal : Nat
  deriving DecidableEq

/-- The arguments of the primary generation call in `runIteration`. -/
def primaryArgs (proc : AgentProcessor) (messages : List Message)
    (model : ModelDescriptor) : CallArgs :=
  ⟨AGENT_SYSTEM_PROMPT, messages, model.name, true, proc.abortController.id⟩

/-- The arguments of the summarization call in `runIteration`: the input
turns plus the synthetic summary turn. -/
def summaryArgs (proc : AgentProcessor) (taskId : String)
    (messages : List Message) (model : ModelDescriptor) (now : Nat) : CallArgs :=
  ⟨SUMMARIZATION_SYSTEM_PROMPT, messages ++ [syntheticSummaryTurn taskId now],
    model.name, false, proc.abortController.id⟩

/-- Trace of one `runIteration` run: its outcome (normal completion or the
escaping error), the executor calls it made with their traces, and the
processor state when it returns (the source never reassigns
`this.abortController`). -/
structure IterationTrace (α : Type) where
  outcome : Except RetryError Unit
  calls : List (CallArgs × RetryResult α)
  finalState : AgentProcessor

/-- Model of `runIteration(taskId, messages, model, shouldSummarize)`: the primary
call through the executor with the agent prompt, `isAgent = true` and the
shared abort signal; then, only if `shouldSummarize` and the primary call
did not throw, the summarization call on `messages` plus the synthetic
turn, with `isAgent = false` and the same signal. The provider is the
oracle `svc`, keyed by call arguments and attempt number. An error from
either executor call escapes `runIteration` unchanged. -/
def runIteration {α : Type} (svc : CallArgs → Nat → Except ProviderError α)
    (proc : AgentProcessor) (taskId : String) (messages : List Message)
    (model : ModelDescriptor) (shouldSummarize : Bool) (now : Nat) :
    IterationTrace α :=
  let args1 := primaryArgs proc messages model
  let r1 := generateWithRetry (svc args1) defaultMaxRetries
  match r1.outcome with
  | .error e => ⟨.error e, [(args1, r1)], proc⟩
  | .ok _ =>
    if shouldSummarize then
      let args2 := summaryArgs proc taskId messages model now
      let r2 := generateWithRetry (svc args2) defaultMaxRetries
      ⟨Except.map (fun _ => ()) r2.outcome, [(args1, r1), (args2, r2)], proc⟩
    else
      ⟨.ok (), [(args1, r1)], proc⟩

/-- Total number of provider invocations performed across the executor
calls of one `runIteration` run. -/
def providerInvocations {α : Type} (t : IterationTrace α) : Nat :=
  (t.calls.map (fun c => c.2.invocations)).sum

/-- The attempt sequence of the spec's worked example: 429 without retry
metadata, then 500, then success. -/
def c8_oracle : Nat → Except ProviderError Nat :=
  fun k =>
    if k = 1 then .error ⟨some 429, none, [], "quota"⟩
    else if k = 2 then .error ⟨some 500, none, [], "server error"⟩
    else .ok 7

def cw1_oracle : Nat → Except ProviderError Nat :=
  fun k => if k = 1 then .error ⟨some 503, none, [], "unavailable"⟩ else .ok 42

def cw2_oracle : Nat → Except ProviderError Nat :=
  fun _ => .error ⟨some 429, none, [], "quota"⟩

def cw3_err : ProviderError := ⟨some 401, none, [], "invalid api key"⟩

def cw3_oracle : Nat → Except ProviderError Nat :=
  fun k => if k = 1 then .error ⟨some 429, none, [], "quota"⟩ else .error cw3_err

def cw9_oracle : Nat → Except ProviderError Nat :=
  fun _ => .error ⟨none, some 502, [], "bad gateway"⟩

def cw4_oracle : Nat → Except ProviderError Nat :=
  fun _ => .error ⟨some 500, none, [], "server error"⟩

/-- A provider failure with code 429 and the given optional retry-delay
detail entry (none models an absent RetryInfo entry). -/
def rlError (rd : Option String) : ProviderError :=
  ⟨some 429, none,
    match rd with
    | some s => [⟨RETRY_INFO_TYPE, some s⟩]
    | none => [],
    "quota exceeded"⟩

/-- A provider behaviour that fails once with `e` and then succeeds. -/
def oneFailOracle (e : ProviderError) : Nat → Except ProviderError Nat :=
  fun k => if k = 1 then .error e else .ok 0

/-- Lift an optional digit value to the optional integer the parser returns. -/
def natsToInt : Option Nat → Option Int
  | none => none
  | some n => some ((n : Nat) : Int)

def cw6_svc : CallArgs → Nat → Except ProviderError Nat := fun _ _ => .ok 5

def cw7_err : ProviderError := ⟨some 403, none, [], "forbidden"⟩

def cw7_svc : CallArgs → Nat → Except ProviderError Nat :=
  fun args _ => if args.isAgent then .ok 1 else .error cw7_err

def cw10_svc : CallArgs → Nat → Except ProviderError Nat := fun _ _ => .ok 0

theorem retryLoop_first_ok {α : Type} (oracle : Nat → Except ProviderError α)
    (a r d : Nat) (v : α) (h : oracle a = .ok v) :
    retryLoop oracle a (r + 1) d = ⟨.ok v, [], 1, [d]⟩ := by
  simp [retryLoop, h]

theorem retryLoop_first_fatal {α : Type} (oracle : Nat → Except ProviderError α)
    (a r d : Nat) (e : ProviderError) (he : oracle a = .error e)
    (hc : classify e = .fatal) :
    retryLoop oracle a (r + 1) d = ⟨.error (.provider e), [], 1, [d]⟩ := by
  simp [retryLoop, he, hc]

theorem retryLoop_step {α : Type} (oracle : Nat → Except ProviderError α)
    (a r d : Nat) (e : ProviderError) (he : oracle a = .error e)
    (hr : retryable e) :
    (retryLoop oracle a (r + 1) d).outcome =
      (retryLoop oracle (a + 1) r (updateDelay d)).outcome ∧
    (retryLoop oracle a (r + 1) d).waits.length =
      (retryLoop oracle (a + 1) r (updateDelay d)).waits.length + 1 ∧
    (retryLoop oracle a (r + 1) d).invocations =
      (retryLoop oracle (a + 1) r (updateDelay d)).invocations + 1 := by
  rcases hr with h | h <;> simp [retryLoop, he, h]

theorem retryLoop_ok_of {α : Type} (oracle : Nat → Except ProviderError α) :
    ∀ (j a r d : Nat) (v : α), j < r →
    (∀ i, i < j → ∃ e, oracle (a + i) = .error e ∧ retryable e) →
    oracle (a + j) = .ok v →
    (retryLoop oracle a r d).outcome = .ok v ∧
    (retryLoop oracle a r d).waits.length = j ∧
    (retryLoop oracle a r d).invocations = j + 1 := by
  intro j
  induction j with
  | zero =>
    intro a r d v hjr hfail hok
    obtain ⟨r1, rfl⟩ : ∃ r1, r = r1 + 1 := ⟨r - 1, by omega⟩
    rw [retryLoop_first_ok oracle a r1 d v (by simpa using hok)]
    simp
  | succ j ih =>
    intro a r d v hjr hfail hok
    obtain ⟨r1, rfl⟩ : ∃ r1, r = r1 + 1 := ⟨r - 1, by omega⟩
    obtain ⟨e, he, hre⟩ := hfail 0 (by omega)
    rw [Nat.add_zero] at he
    have ih1 := ih (a + 1) r1 (updateDelay d) v (by omega)
      (fun i hi => by
        obtain ⟨e2, he2, hre2⟩ := hfail (i + 1) (by omega)
        exact ⟨e2, by rw [show a + 1 + i = a + (i + 1) from by omega]; exact he2, hre2⟩)
      (by rw [show a + 1 + j = a + (j + 1) from by omega]; exact hok)
    have hs := retryLoop_step oracle a r1 d e he hre
    refine ⟨hs.1.trans ih1.1, ?_, ?_⟩
    · rw [hs.2.1, ih1.2.1]
    · rw [hs.2.2, ih1.2.2]

theorem retryLoop_exhaust {α : Type} (oracle : Nat → Except ProviderError α) :
    ∀ (r a d : Nat),
    (∀ i, i < r → ∃ e, oracle (a + i) = .error e ∧ retryable e) →
    (retryLoop oracle a r d).outcome = .error .exhausted ∧
    (retryLoop oracle a r d).waits.length = r ∧
    (retryLoop oracle a r d).invocations = r := by
  intro r
  induction r with
  | zero => intro a d _; simp [retryLoop]
  | succ r ih =>
    intro a d hfail
    obtain ⟨e, he, hre⟩ := hfail 0 (by omega)
    rw [Nat.add_zero] at he
    have ih1 := ih (a + 1) (updateDelay d)
      (fun i hi => by
        obtain ⟨e2, he2, hre2⟩ := hfail (i + 1) (by omega)
        exact ⟨e2, by rw [show a + 1 + i = a + (i + 1) from by omega]; exact he2, hre2⟩)
    have hs := retryLoop_step oracle a r d e he hre
    refine ⟨hs.1.trans ih1.1, ?_, ?_⟩
    · rw [hs.2.1, ih1.2.1]
    · rw [hs.2.2, ih1.2.2]

theorem retryLoop_fatal_of {α : Type} (oracle : Nat → Except ProviderError α) :
    ∀ (j a r d : Nat) (e : ProviderError), j < r →
    (∀ i, i < j → ∃ e2, oracle (a + i) = .error e2 ∧ retryable e2) →
    oracle (a + j) = .error e → classify e = .fatal →
    (retryLoop oracle a r d).outcome = .error (.provider e) ∧
    (retryLoop oracle a r d).waits.length = j ∧
    (retryLoop oracle a r d).invocations = j + 1 := by
  intro j
  induction j with
  | zero =>
    intro a r d e hjr hfail hek hc
    obtain ⟨r1, rfl⟩ : ∃ r1, r = r1 + 1 := ⟨r - 1, by omega⟩
    rw [retryLoop_first_fatal oracle a r1 d e (by simpa using hek) hc]
    simp
  | succ j ih =>
    intro a r d e hjr hfail hek hc
    obtain ⟨r1, rfl⟩ : ∃ r1, r = r1 + 1 := ⟨r - 1, by omega⟩
    obtain ⟨e2, he2, hre2⟩ := hfail 0 (by omega)
    rw [Nat.add_zero] at he2
    have ih1 := ih (a + 1) r1 (updateDelay d) e (by omega)
      (fun i hi => by
        obtain ⟨e3, he3, hre3⟩ := hfail (i + 1) (by omega)
        exact ⟨e3, by rw [show a + 1 + i = a + (i + 1) from by omega]; exact he3, hre3⟩)
      (by rw [show a + 1 + j = a + (j + 1) from by omega]; exact hek) hc
    have hs := retryLoop_step oracle a r1 d e2 he2 hre2
    refine ⟨hs.1.trans ih1.1, ?_, ?_⟩
    · rw [hs.2.1, ih1.2.1]
    · rw [hs.2.2, ih1.2.2]

theorem retryLoop_outcome_cases {α : Type} (oracle : Nat → Except ProviderError α) :
    ∀ (r a d : Nat),
    (∃ v, (retryLoop oracle a r d).outcome = .ok v) ∨
    (retryLoop oracle a r d).outcome = .error .exhausted ∨
    (∃ e, (retryLoop oracle a r d).outcome = .error (.provider e) ∧
      classify e = .fatal) := by
  intro r
  induction r with
  | zero => intro a d; right; left; simp [retryLoop]
  | succ r ih =>
    intro a d
    cases he : oracle a with
    | ok v => left; exact ⟨v, by rw [retryLoop_first_ok oracle a r d v he]⟩
    | error e =>
      cases hc : classify e with
      | fatal =>
        right; right
        exact ⟨e, by rw [retryLoop_first_fatal oracle a r d e he hc], hc⟩
      | rateLimited =>
        have hs := retryLoop_step oracle a r d e he (Or.inl hc)
        rw [hs.1]; exact ih (a + 1) (updateDelay d)
      | transient =>
        have hs := retryLoop_step oracle a r d e he (Or.inr hc)
        rw [hs.1]; exact ih (a + 1) (updateDelay d)

theorem retryLoop_delays_head {α : Type} (oracle : Nat → Except ProviderError α)
    (a r d : Nat) (hr : 1 ≤ r) :
    (retryLoop oracle a r d).delaysSeen.head? = some d := by
  obtain ⟨r1, rfl⟩ : ∃ r1, r = r1 + 1 := ⟨r - 1, by omega⟩
  cases he : oracle a with
  | ok v => rw [retryLoop_first_ok oracle a r1 d v he]; rfl
  | error e =>
    cases hc : classify e with
    | fatal => rw [retryLoop_first_fatal oracle a r1 d e he hc]; rfl
    | rateLimited => simp [retryLoop, he, hc]
    | transient => simp [retryLoop, he, hc]

theorem retryLoop_delays_chain {α : Type} (oracle : Nat → Except ProviderError α) :
    ∀ (r a d : Nat),
    List.Chain' (fun x y => y = updateDelay x) (retryLoop oracle a r d).delaysSeen := by
  intro r
  induction r with
  | zero => intro a d; simp [retryLoop]
  | succ r ih =>
    intro a d
    cases he : oracle a with
    | ok v => rw [retryLoop_first_ok oracle a r d v he]; simp
    | error e =>
      cases hc : classify e with
      | fatal => rw [retryLoop_first_fatal oracle a r d e he hc]; simp
      | rateLimited =>
        have hd : (retryLoop oracle a (r + 1) d).delaysSeen =
            d :: (retryLoop oracle (a + 1) r (updateDelay d)).delaysSeen := by
          simp [retryLoop, he, hc]
        rw [hd, List.chain'_cons']
        constructor
        · intro y hy
          rcases r with _ | r1
          · simp [retryLoop] at hy
          · rw [retryLoop_delays_head oracle (a + 1) (r1 + 1) (updateDelay d)
              (by omega)] at hy
            simp at hy; omega
        · exact ih (a + 1) (updateDelay d)
      | transient =>
        have hd : (retryLoop oracle a (r + 1) d).delaysSeen =
            d :: (retryLoop oracle (a + 1) r (updateDelay d)).delaysSeen := by
          simp [retryLoop, he, hc]
        rw [hd, List.chain'_cons']
        constructor
        · intro y hy
          rcases r with _ | r1
          · simp [retryLoop] at hy
          · rw [retryLoop_delays_head oracle (a + 1) (r1 + 1) (updateDelay d)
              (by omega)] at hy
            simp at hy; omega
        · exact ih (a + 1) (updateDelay d)

theorem chain_update_bounds :
    ∀ (ds : List Nat),
    List.Chain' (fun x y => y = updateDelay x) ds →
    ∀ h0, ds.head? = some h0 → h0 ≤ 60000 →
    (∀ x ∈ ds, h0 ≤ x ∧ x ≤ 60000) ∧
    List.Chain' (fun x y : Nat => x ≤ y) ds := by
  intro ds
  induction ds with
  | nil => intro _ h0 hh; simp at hh
  | cons a t ih =>
    intro hch h0 hh hb
    simp only [List.head?] at hh
    injection hh with hh; subst hh
    rcases t with _ | ⟨b, t1⟩
    · exact ⟨by simpa using hb, by simp⟩
    · rw [List.chain'_cons] at hch
      obtain ⟨hab, hch1⟩ := hch
      have hb2 : b ≤ 60000 := by
        rw [hab]; unfold updateDelay; omega
      have hab2 : a ≤ b := by
        rw [hab]; unfold updateDelay; omega
      have := ih hch1 b rfl hb2
      refine ⟨?_, ?_⟩
      · intro x hx
        rcases List.mem_cons.mp hx with rfl | hx
        · exact ⟨le_refl _, hb⟩
        · have hxb := this.1 x hx
          exact ⟨le_trans hab2 hxb.1, hxb.2⟩
      · rw [List.chain'_cons]
        exact ⟨hab2, this.2⟩

/-- Claim C1: if the first N−1 attempts fail retryably (429 or 5xx) and the
N-th attempt succeeds, with N ≤ maxRetries, then `generateWithRetry` returns
that success value unchanged, performs exactly N−1 timed waits, and invokes
the provider exactly N times. -/
theorem c1_success_passthrough {α : Type} (oracle : Nat → Except ProviderError α)
    (M N : Nat) (v : α) (h1 : 1 ≤ N) (h2 : N ≤ M)
    (hfail : ∀ k, 1 ≤ k → k < N → ∃ e, oracle k = .error e ∧ retryable e)
    (hok : oracle N = .ok v) :
    (generateWithRetry oracle M).outcome = .ok v ∧
    (generateWithRetry oracle M).waits.length = N - 1 ∧
    (generateWithRetry oracle M).invocations = N := by
  unfold generateWithRetry
  have h := retryLoop_ok_of oracle (N - 1) 1 M 5000 v (by omega)
    (fun i hi => by
      obtain ⟨e, he, hre⟩ := hfail (1 + i) (by omega) (by omega)
      exact ⟨e, he, hre⟩)
    (by rw [show 1 + (N - 1) = N from by omega]; exact hok)
  exact ⟨h.1, h.2.1, by omega⟩

theorem c1_success_passthrough_witness :
    (generateWithRetry cw1_oracle 3).outcome = .ok 42 ∧
    (generateWithRetry cw1_oracle 3).waits.length = 2 - 1 ∧
    (generateWithRetry cw1_oracle 3).invocations = 2 :=
  c1_success_passthrough cw1_oracle 3 2 42 (by omega) (by omega)
    (fun k hk1 hk2 => by
      have hk : k = 1 := by omega
      subst hk
      exact ⟨⟨some 503, none, [], "unavailable"⟩, rfl, Or.inr (by decide)⟩)
    rfl

/-- Claim C2: if every one of the M = maxRetries attempts fails retryably,
`generateWithRetry` performs exactly M provider invocations — never an
(M+1)-th — and fails with the dedicated exhaustion error, which is distinct
from every underlying provider error. -/
theorem c2_exhaustion {α : Type} (oracle : Nat → Except ProviderError α)
    (M : Nat) (h1 : 1 ≤ M)
    (hfail : ∀ k, 1 ≤ k → k ≤ M → ∃ e, oracle k = .error e ∧ retryable e) :
    (generateWithRetry oracle M).invocations = M ∧
    (generateWithRetry oracle M).outcome = .error .exhausted ∧
    (∀ e : ProviderError,
      (generateWithRetry oracle M).outcome ≠ .error (.provider e)) := by
  unfold generateWithRetry
  have h := retryLoop_exhaust oracle M 1 5000
    (fun i hi => by
      obtain ⟨e, he, hre⟩ := hfail (1 + i) (by omega) (by omega)
      exact ⟨e, he, hre⟩)
  exact ⟨h.2.2, h.1, fun e hcontra => by rw [h.1] at hcontra; simp at hcontra⟩

theorem c2_exhaustion_witness :
    (generateWithRetry cw2_oracle 2).invocations = 2 ∧
    (generateWithRetry cw2_oracle 2).outcome = .error .exhausted ∧
    (∀ e : ProviderError,
      (generateWithRetry cw2_oracle 2).outcome ≠ .error (.provider e)) :=
  c2_exhaustion cw2_oracle 2 (by omega)
    (fun k _ _ => ⟨⟨some 429, none, [], "quota"⟩, rfl, Or.inl (by decide)⟩)

/-- Claim C3: if attempts before k fail retryably and the k-th attempt
(k ≤ maxRetries) fails with a fatal classification (neither 429 nor 5xx),
`generateWithRetry` stops at attempt k — exactly k invocations, k−1 waits,
so no wait after the fatal failure — and surfaces the original provider
error unmodified. -/
theorem c3_fatal_immediate {α : Type} (oracle : Nat → Except ProviderError α)
    (M k : Nat) (e : ProviderError) (h1 : 1 ≤ k) (h2 : k ≤ M)
    (hfail : ∀ j, 1 ≤ j → j < k → ∃ e2, oracle j = .error e2 ∧ retryable e2)
    (he : oracle k = .error e) (hc : classify e = .fatal) :
    (generateWithRetry oracle M).outcome = .error (.provider e) ∧
    (generateWithRetry oracle M).invocations = k ∧
    (generateWithRetry oracle M).waits.length = k - 1 := by
  unfold generateWithRetry
  have h := retryLoop_fatal_of oracle (k - 1) 1 M 5000 e (by omega)
    (fun i hi => by
      obtain ⟨e2, he2, hre2⟩ := hfail (1 + i) (by omega) (by omega)
      exact ⟨e2, he2, hre2⟩)
    (by rw [show 1 + (k - 1) = k from by omega]; exact he) hc
  exact ⟨h.1, by omega, h.2.1⟩

theorem c3_fatal_immediate_witness :
    (generateWithRetry cw3_oracle 5).outcome = .error (.provider cw3_err) ∧
    (generateWithRetry cw3_oracle 5).invocations = 2 ∧
    (generateWithRetry cw3_oracle 5).waits.length = 2 - 1 :=
  c3_fatal_immediate cw3_oracle 5 2 cw3_err (by omega) (by omega)
    (fun j hj1 hj2 => by
      have hj : j = 1 := by omega
      subst hj
      exact ⟨⟨some 429, none, [], "quota"⟩, rfl, Or.inl (by decide)⟩)
    rfl (by decide)

/-- Claim C9: when all M = maxRetries attempts fail retryably, the executor
performs exactly M timed waits — including one full backoff sleep after the
final failed attempt — and only then raises the exhaustion error. -/
theorem c9_wait_after_final_failure {α : Type} (oracle : Nat → Except ProviderError α)
    (M : Nat) (h1 : 1 ≤ M)
    (hfail : ∀ k, 1 ≤ k → k ≤ M → ∃ e, oracle k = .error e ∧ retryable e) :
    (generateWithRetry oracle M).waits.length = M ∧
    (generateWithRetry oracle M).waits ≠ [] ∧
    (generateWithRetry oracle M).outcome = .error .exhausted := by
  unfold generateWithRetry
  have h := retryLoop_exhaust oracle M 1 5000
    (fun i hi => by
      obtain ⟨e, he, hre⟩ := hfail (1 + i) (by omega) (by omega)
      exact ⟨e, he, hre⟩)
  refine ⟨h.2.1, ?_, h.1⟩
  intro hnil
  rw [hnil] at h
  simp at h
  omega

theorem c9_wait_after_final_failure_witness :
    (generateWithRetry cw9_oracle 3).waits.length = 3 ∧
    (generateWithRetry cw9_oracle 3).waits ≠ [] ∧
    (generateWithRetry cw9_oracle 3).outcome = .error .exhausted :=
  c9_wait_after_final_failure cw9_oracle 3 (by omega)
    (fun k _ _ => ⟨⟨none, some 502, [], "bad gateway"⟩, rfl, Or.inr (by decide)⟩)

/-- Claim C8: with maxRetries = 3, a 429 failure without retry metadata on
attempt 1, a 500 failure on attempt 2 and a success on attempt 3,
`generateWithRetry` waits exactly 5000 ms then 10000 ms and returns the
third attempt's result after exactly 3 invocations. -/
theorem c8_concrete_trace :
    (generateWithRetry c8_oracle 3).outcome = .ok 7 ∧
    (generateWithRetry c8_oracle 3).waits = [5000, 10000] ∧
    (generateWithRetry c8_oracle 3).invocations = 3 :=
  ⟨rfl, rfl, rfl⟩

/-- Claim C4: within a single run the backoff delay starts at 5000 ms, each
retryable failure replaces it by `min(2 * delay, 60000)`, so the recorded
delay values are non-decreasing, never exceed 60000 ms, and never return to
5000 ms after the first update. -/
theorem c4_backoff_invariant {α : Type} (oracle : Nat → Except ProviderError α)
    (M : Nat) (h1 : 1 ≤ M) :
    (generateWithRetry oracle M).delaysSeen.head? = some 5000 ∧
    List.Chain' (fun x y => y = updateDelay x)
      (generateWithRetry oracle M).delaysSeen ∧
    (∀ x ∈ (generateWithRetry oracle M).delaysSeen, x ≤ 60000) ∧
    List.Chain' (fun x y : Nat => x ≤ y) (generateWithRetry oracle M).delaysSeen ∧
    (∀ x ∈ (generateWithRetry oracle M).delaysSeen.tail, 10000 ≤ x) ∧
    (∀ dd : Nat, updateDelay dd = min (dd * 2) 60000) := by
  have hh : (generateWithRetry oracle M).delaysSeen.head? = some 5000 :=
    retryLoop_delays_head oracle 1 M 5000 h1
  have hch : List.Chain' (fun x y => y = updateDelay x)
      (generateWithRetry oracle M).delaysSeen :=
    retryLoop_delays_chain oracle M 1 5000
  have hb := chain_update_bounds _ hch 5000 hh (by omega)
  refine ⟨hh, hch, fun x hx => (hb.1 x hx).2, hb.2, ?_, fun _ => rfl⟩
  intro x hx
  rcases hds : (generateWithRetry oracle M).delaysSeen with _ | ⟨a, t⟩
  · rw [hds] at hx; simp at hx
  · rw [hds] at hx hh hch
    simp only [List.head?] at hh
    injection hh with hh
    subst hh
    simp only [List.tail] at hx
    rcases t with _ | ⟨b, t1⟩
    · simp at hx
    · rw [List.chain'_cons] at hch
      obtain ⟨hab, hch1⟩ := hch
      have hb10 : b = 10000 := by rw [hab]; decide
      have h2 := chain_update_bounds (b :: t1) hch1 b rfl (by omega)
      have := (h2.1 x hx).1
      omega

theorem c4_backoff_invariant_witness :
    (generateWithRetry cw4_oracle 6).delaysSeen.head? = some 5000 ∧
    List.Chain' (fun x y => y = updateDelay x)
      (generateWithRetry cw4_oracle 6).delaysSeen ∧
    (∀ x ∈ (generateWithRetry cw4_oracle 6).delaysSeen, x ≤ 60000) ∧
    List.Chain' (fun x y : Nat => x ≤ y) (generateWithRetry cw4_oracle 6).delaysSeen ∧
    (∀ x ∈ (generateWithRetry cw4_oracle 6).delaysSeen.tail, 10000 ≤ x) ∧
    (∀ dd : Nat, updateDelay dd = min (dd * 2) 60000) :=
  c4_backoff_invariant cw4_oracle 6 (by omega)

theorem digit_char_facts (c : Char) (hc : c.isDigit = true) :
    c ≠ 's' ∧ c ≠ '-' ∧ c ≠ '+' ∧ isJsSpace c = false := by
  refine ⟨?_, ?_, ?_, ?_⟩
  · intro h; subst h; exact absurd hc (by decide)
  · intro h; subst h; exact absurd hc (by decide)
  · intro h; subst h; exact absurd hc (by decide)
  · unfold isJsSpace
    simp only [Bool.or_eq_false_iff, decide_eq_false_iff_not]
    refine ⟨⟨⟨?_, ?_⟩, ?_⟩, ?_⟩ <;>
      (intro h; subst h; exact absurd hc (by decide))

theorem stripFirstS_digits (ds : List Char) (hd : ∀ c ∈ ds, c.isDigit = true) :
    stripFirstS (ds ++ ['s']) = ds := by
  induction ds with
  | nil => simp [stripFirstS]
  | cons c t ih =>
    have hne := (digit_char_facts c (hd c (by simp))).1
    simp only [List.cons_append, stripFirstS, if_neg hne]
    exact congrArg (fun l => c :: l) (ih (fun x hx => hd x (by simp [hx])))

theorem leadingDigits_all (ds : List Char) (hd : ∀ c ∈ ds, c.isDigit = true) :
    leadingDigits ds = ds := by
  induction ds with
  | nil => rfl
  | cons c t ih =>
    simp only [leadingDigits, if_pos (hd c (by simp))]
    rw [ih (fun x hx => hd x (by simp [hx]))]

theorem jsParseInt_digits (ds : List Char) (hne : ds ≠ [])
    (hd : ∀ c ∈ ds, c.isDigit = true) :
    jsParseInt ⟨ds⟩ = some ((digitsToNat ds : Int)) := by
  rcases ds with _ | ⟨c, t⟩
  · exact absurd rfl hne
  obtain ⟨h1, h2, h3, h4⟩ := digit_char_facts c (hd c (by simp))
  unfold jsParseInt
  have hdata : (String.mk (c :: t)).data = c :: t := rfl
  rw [hdata, List.dropWhile_cons, h4]
  simp only [Bool.false_eq_true, if_false, if_neg h2, if_neg h3]
  unfold parseDigits
  rw [leadingDigits_all (c :: t) hd]
  rfl

theorem classify_rlError (rd : Option String) :
    classify (rlError rd) = .rateLimited := by
  rcases rd with _ | s <;> rfl

theorem extractRetryDelay_wf (ds : List Char) (hd : ∀ c ∈ ds, c.isDigit = true) :
    extractRetryDelay (rlError (some ⟨ds ++ ['s']⟩)) =
      natsToInt (parseDigits ds) := by
  have hfind : (rlError (some ⟨ds ++ ['s']⟩)).details.find?
      (fun d => d.atType = RETRY_INFO_TYPE) =
      some ⟨RETRY_INFO_TYPE, some ⟨ds ++ ['s']⟩⟩ := by
    simp [rlError, List.find?]
  have hsne : (String.mk (ds ++ ['s'])) ≠ "" := by
    intro h
    have := congrArg String.data h
    simp at this
  unfold extractRetryDelay
  rw [hfind]
  simp only [if_neg hsne]
  have hstrip : stripS ⟨ds ++ ['s']⟩ = ⟨ds⟩ := by
    unfold stripS
    rw [show (String.mk (ds ++ ['s'])).data = ds ++ ['s'] from rfl,
      stripFirstS_digits ds hd]
  rw [hstrip]
  rcases hds : ds with _ | ⟨c, t⟩
  · rfl
  · rw [jsParseInt_digits (c :: t) (by simp) (by rw [← hds]; exact hd)]
    unfold natsToInt parseDigits
    rw [leadingDigits_all (c :: t) (by rw [← hds]; exact hd)]

theorem oneFail_run (e : ProviderError) (hc : classify e = .rateLimited) (d : Nat) :
    (retryLoop (oneFailOracle e) 1 2 d).outcome = .ok 0 ∧
    (retryLoop (oneFailOracle e) 1 2 d).waits =
      [jsOrNum (extractRetryDelay e) ((d / 1000 : Nat) : Int) * 1000] := by
  have h2 : retryLoop (oneFailOracle e) 2 1 (updateDelay d) =
      ⟨.ok 0, [], 1, [updateDelay d]⟩ :=
    retryLoop_first_ok (oneFailOracle e) 2 0 (updateDelay d) 0 rfl
  constructor <;>
    · show _ = _
      simp [retryLoop, oneFailOracle, hc, h2]

theorem jsOrNum_none (y : Int) : jsOrNum none y = y := rfl

theorem jsOrNum_some (n y : Int) (h : n ≠ 0) : jsOrNum (some n) y = n := by
  simp [jsOrNum, h]

theorem jsOrNum_zero (y : Int) : jsOrNum (some 0) y = y := rfl

theorem extractRetryDelay_absent : extractRetryDelay (rlError none) = none := rfl

theorem extractRetryDelay_malformed (s : String)
    (hp : jsParseInt (stripS s) = none) :
    extractRetryDelay (rlError (some s)) = none := by
  have hfind : (rlError (some s)).details.find?
      (fun d => d.atType = RETRY_INFO_TYPE) =
      some ⟨RETRY_INFO_TYPE, some s⟩ := by
    simp [rlError, List.find?]
  unfold extractRetryDelay
  rw [hfind]
  by_cases hs : s = ""
  · simp [hs]
  · simp [if_neg hs, hp]

/-- Claim C5, corrected: on a 429 failure the executor waits the seconds
parsed from a well-formed retry-delay detail entry provided that the parsed
value is nonzero; when the entry is absent, malformed, or parses to 0 (the
JavaScript `||` fallback treats 0 as falsy), the wait is the current
computed delay divided by 1000 seconds, and no error is raised in any of
these cases (the run still succeeds on the next attempt). -/
theorem c5_retry_delay_extraction (d : Nat) (hdiv : 1000 ∣ d) (rd : Option String) :
    (retryLoop (oneFailOracle (rlError rd)) 1 2 d).outcome = .ok 0 ∧
    (rd = none →
      (retryLoop (oneFailOracle (rlError rd)) 1 2 d).waits = [(d : Int)]) ∧
    (∀ s, rd = some s → jsParseInt (stripS s) = none →
      (retryLoop (oneFailOracle (rlError rd)) 1 2 d).waits = [(d : Int)]) ∧
    (∀ ds : List Char, rd = some ⟨ds ++ ['s']⟩ → (∀ c ∈ ds, c.isDigit = true) →
      digitsToNat ds ≠ 0 →
      (retryLoop (oneFailOracle (rlError rd)) 1 2 d).waits =
        [(digitsToNat ds : Int) * 1000]) ∧
    (∀ ds : List Char, rd = some ⟨ds ++ ['s']⟩ → (∀ c ∈ ds, c.isDigit = true) →
      digitsToNat ds = 0 →
      (retryLoop (oneFailOracle (rlError rd)) 1 2 d).waits = [(d : Int)]) := by
  obtain ⟨hout, hw⟩ := oneFail_run (rlError rd) (classify_rlError rd) d
  have hdint : ((d / 1000 : Nat) : Int) * 1000 = (d : Int) := by
    have hnat : d / 1000 * 1000 = d := Nat.div_mul_cancel hdiv
    omega
  refine ⟨hout, ?_, ?_, ?_, ?_⟩
  · intro hrd
    subst hrd
    rw [hw, extractRetryDelay_absent]
    simp only [jsOrNum, hdint]
  · intro s hrd hp
    subst hrd
    rw [hw, extractRetryDelay_malformed s hp]
    simp only [jsOrNum, hdint]
  · intro ds hrd hdig hnz
    subst hrd
    rw [hw, extractRetryDelay_wf ds hdig]
    rcases hds : ds with _ | ⟨c, t⟩
    · subst hds; exact absurd rfl hnz
    · subst hds
      have hpd : natsToInt (parseDigits (c :: t)) =
          some ((digitsToNat (c :: t) : Int)) := by
        unfold natsToInt parseDigits
        rw [leadingDigits_all (c :: t) hdig]
      have hz2 : ((digitsToNat (c :: t) : Int)) ≠ 0 := by
        intro h
        exact hnz (by exact_mod_cast h)
      rw [hpd, jsOrNum_some _ _ hz2]
  · intro ds hrd hdig hz
    subst hrd
    rw [hw, extractRetryDelay_wf ds hdig]
    rcases hds : ds with _ | ⟨c, t⟩
    · subst hds
      have hpd : natsToInt (parseDigits ([] : List Char)) = none := rfl
      rw [hpd, jsOrNum_none, hdint]
    · subst hds
      have hpd : natsToInt (parseDigits (c :: t)) =
          some ((digitsToNat (c :: t) : Int)) := by
        unfold natsToInt parseDigits
        rw [leadingDigits_all (c :: t) hdig]
      have hz2 : ((digitsToNat (c :: t) : Int)) = 0 := by exact_mod_cast hz
      rw [hpd, hz2, jsOrNum_zero, hdint]

theorem c5_retry_delay_extraction_witness :
    (retryLoop (oneFailOracle (rlError (some "3s"))) 1 2 20000).outcome = .ok 0 ∧
    (retryLoop (oneFailOracle (rlError (some "3s"))) 1 2 20000).waits =
      [(3 : Int) * 1000] ∧
    (retryLoop (oneFailOracle (rlError (some "abc"))) 1 2 20000).waits =
      [(20000 : Int)] ∧
    (retryLoop (oneFailOracle (rlError none)) 1 2 20000).waits = [(20000 : Int)] :=
  ⟨(c5_retry_delay_extraction 20000 ⟨20, rfl⟩ (some "3s")).1,
   (c5_retry_delay_extraction 20000 ⟨20, rfl⟩ (some "3s")).2.2.2.1
     ['3'] rfl (by decide) (by decide),
   (c5_retry_delay_extraction 20000 ⟨20, rfl⟩ (some "abc")).2.2.1 "abc" rfl rfl,
   (c5_retry_delay_extraction 20000 ⟨20, rfl⟩ none).2.1 rfl⟩

/-- Claim C5 as stated is refuted by the retry-delay string "0s": it is a
string of digits with trailing "s" and parses to 0 seconds, yet the
executor does not wait 0 seconds — the JavaScript `||` fallback treats the
parsed 0 as falsy, so the wait is the computed 5000 ms backoff instead. -/
theorem c5_claim_counterexample :
    extractRetryDelay (rlError (some "0s")) = some 0 ∧
    (generateWithRetry (oneFailOracle (rlError (some "0s"))) 2).waits =
      [(5000 : Int)] ∧
    (5000 : Int) ≠ 0 * 1000 :=
  ⟨rfl, rfl, by decide⟩

theorem generateWithRetry_outcome_cases {α : Type}
    (oracle : Nat → Except ProviderError α) (M : Nat) :
    (∃ v, (generateWithRetry oracle M).outcome = .ok v) ∨
    (generateWithRetry oracle M).outcome = .error .exhausted ∨
    (∃ e, (generateWithRetry oracle M).outcome = .error (.provider e) ∧
      classify e = .fatal) :=
  retryLoop_outcome_cases oracle M 1 5000

/-- Claim C6: when every first attempt succeeds, `runIteration` with
`shouldSummarize = false` performs one executor call and one provider
invocation; with `shouldSummarize = true` it performs two executor calls
and two provider invocations, the second call's turn sequence being the
input plus exactly one synthetic turn — role user, the fixed
summary-request text, the caller's taskId, and no summary-linkage id. -/
theorem c6_provider_call_counts {α : Type}
    (svc : CallArgs → Nat → Except ProviderError α)
    (proc : AgentProcessor) (taskId : String) (messages : List Message)
    (model : ModelDescriptor) (now : Nat) (v1 v2 : α)
    (h1 : svc (primaryArgs proc messages model) 1 = .ok v1)
    (h2 : svc (summaryArgs proc taskId messages model now) 1 = .ok v2) :
    providerInvocations (runIteration svc proc taskId messages model false now) = 1 ∧
    (runIteration svc proc taskId messages model false now).calls.length = 1 ∧
    providerInvocations (runIteration svc proc taskId messages model true now) = 2 ∧
    (runIteration svc proc taskId messages model true now).calls.length = 2 ∧
    ((runIteration svc proc taskId messages model true now).calls.map
      (fun c => c.1)).getLast? = some (summaryArgs proc taskId messages model now) ∧
    (summaryArgs proc taskId messages model now).messages.length =
      messages.length + 1 ∧
    (summaryArgs proc taskId messages model now).messages.getLast? =
      some (syntheticSummaryTurn taskId now) ∧
    (syntheticSummaryTurn taskId now).role = Role.USER ∧
    (syntheticSummaryTurn taskId now).content =
      [⟨MessageContentType.Text, summaryRequestText⟩] ∧
    (syntheticSummaryTurn taskId now).taskId = taskId ∧
    (syntheticSummaryTurn taskId now).summaryId = none := by
  have e1 : generateWithRetry (svc (primaryArgs proc messages model))
      defaultMaxRetries = ⟨.ok v1, [], 1, [5000]⟩ := by
    unfold generateWithRetry defaultMaxRetries
    exact retryLoop_first_ok _ 1 9 5000 v1 h1
  have e2 : generateWithRetry (svc (summaryArgs proc taskId messages model now))
      defaultMaxRetries = ⟨.ok v2, [], 1, [5000]⟩ := by
    unfold generateWithRetry defaultMaxRetries
    exact retryLoop_first_ok _ 1 9 5000 v2 h2
  refine ⟨?_, ?_, ?_, ?_, ?_, by simp [summaryArgs], by simp [summaryArgs],
    rfl, rfl, rfl, rfl⟩ <;>
    simp [runIteration, providerInvocations, e1, e2]

theorem c6_provider_call_counts_witness :
    providerInvocations
      (runIteration cw6_svc (AgentProcessor.new 0) "task-1" [] ⟨"m"⟩ false 0) = 1 ∧
    (runIteration cw6_svc (AgentProcessor.new 0) "task-1" [] ⟨"m"⟩ false 0).calls.length = 1 ∧
    providerInvocations
      (runIteration cw6_svc (AgentProcessor.new 0) "task-1" [] ⟨"m"⟩ true 0) = 2 ∧
    (runIteration cw6_svc (AgentProcessor.new 0) "task-1" [] ⟨"m"⟩ true 0).calls.length = 2 ∧
    ((runIteration cw6_svc (AgentProcessor.new 0) "task-1" [] ⟨"m"⟩ true 0).calls.map
      (fun c => c.1)).getLast? =
      some (summaryArgs (AgentProcessor.new 0) "task-1" [] ⟨"m"⟩ 0) ∧
    (summaryArgs (AgentProcessor.new 0) "task-1" [] ⟨"m"⟩ 0).messages.length =
      List.length ([] : List Message) + 1 ∧
    (summaryArgs (AgentProcessor.new 0) "task-1" [] ⟨"m"⟩ 0).messages.getLast? =
      some (syntheticSummaryTurn "task-1" 0) ∧
    (syntheticSummaryTurn "task-1" 0).role = Role.USER ∧
    (syntheticSummaryTurn "task-1" 0).content =
      [⟨MessageContentType.Text, summaryRequestText⟩] ∧
    (syntheticSummaryTurn "task-1" 0).taskId = "task-1" ∧
    (syntheticSummaryTurn "task-1" 0).summaryId = none :=
  c6_provider_call_counts cw6_svc (AgentProcessor.new 0) "task-1" [] ⟨"m"⟩ 0 5 5
    rfl rfl

/-- Claim C7: a caller of `runIteration` observes either normal completion,
the exhaustion error, or a provider error whose classification is fatal —
never a retryable provider error; and a failure of the summarization call
propagates out of `runIteration` even when the primary call succeeded. -/
theorem c7_error_taxonomy {α : Type}
    (svc : CallArgs → Nat → Except ProviderError α)
    (proc : AgentProcessor) (taskId : String) (messages : List Message)
    (model : ModelDescriptor) (shouldSummarize : Bool) (now : Nat) :
    ((∃ u, (runIteration svc proc taskId messages model shouldSummarize now).outcome
        = .ok u) ∨
      (runIteration svc proc taskId messages model shouldSummarize now).outcome
        = .error .exhausted ∨
      (∃ e, (runIteration svc proc taskId messages model shouldSummarize now).outcome
          = .error (.provider e) ∧ classify e = .fatal)) ∧
    (∀ er : RetryError,
      (∃ v, (generateWithRetry (svc (primaryArgs proc messages model))
        defaultMaxRetries).outcome = .ok v) →
      (generateWithRetry (svc (summaryArgs proc taskId messages model now))
        defaultMaxRetries).outcome = .error er →
      (runIteration svc proc taskId messages model true now).outcome = .error er) := by
  constructor
  · have hcases1 := generateWithRetry_outcome_cases
      (svc (primaryArgs proc messages model)) defaultMaxRetries
    cases hr1 : (generateWithRetry (svc (primaryArgs proc messages model))
        defaultMaxRetries).outcome with
    | error e =>
      have hout : (runIteration svc proc taskId messages model shouldSummarize
          now).outcome = .error e := by
        simp [runIteration, hr1]
      rcases hcases1 with ⟨v, hv⟩ | hex | ⟨e2, he2, hc2⟩
      · rw [hr1] at hv; exact absurd hv (by simp)
      · rw [hr1] at hex; injection hex with h
        right; left; rw [hout, h]
      · rw [hr1] at he2; injection he2 with h
        right; right; exact ⟨e2, by rw [hout, h], hc2⟩
    | ok u =>
      cases shouldSummarize with
      | false => exact Or.inl ⟨(), by simp [runIteration, hr1]⟩
      | true =>
        have hcases2 := generateWithRetry_outcome_cases
          (svc (summaryArgs proc taskId messages model now)) defaultMaxRetries
        cases hr2 : (generateWithRetry (svc (summaryArgs proc taskId messages
            model now)) defaultMaxRetries).outcome with
        | ok u2 =>
          exact Or.inl ⟨(), by simp [runIteration, hr1, hr2, Except.map]⟩
        | error e2 =>
          have hout : (runIteration svc proc taskId messages model true
              now).outcome = .error e2 := by
            simp [runIteration, hr1, hr2, Except.map]
          rcases hcases2 with ⟨v, hv⟩ | hex | ⟨e3, he3, hc3⟩
          · rw [hr2] at hv; exact absurd hv (by simp)
          · rw [hr2] at hex; injection hex with h
            right; left; rw [hout, h]
          · rw [hr2] at he3; injection he3 with h
            right; right; exact ⟨e3, by rw [hout, h], hc3⟩
  · intro er hok her
    obtain ⟨v, hv⟩ := hok
    simp [runIteration, hv, her, Except.map]

theorem c7_error_taxonomy_witness :
    ((∃ u, (runIteration cw7_svc (AgentProcessor.new 0) "t" [] ⟨"m"⟩ true 0).outcome
        = .ok u) ∨
      (runIteration cw7_svc (AgentProcessor.new 0) "t" [] ⟨"m"⟩ true 0).outcome
        = .error .exhausted ∨
      (∃ e, (runIteration cw7_svc (AgentProcessor.new 0) "t" [] ⟨"m"⟩ true 0).outcome
          = .error (.provider e) ∧ classify e = .fatal)) ∧
    (runIteration cw7_svc (AgentProcessor.new 0) "t" [] ⟨"m"⟩ true 0).outcome =
      .error (.provider cw7_err) :=
  ⟨(c7_error_taxonomy cw7_svc (AgentProcessor.new 0) "t" [] ⟨"m"⟩ true 0).1,
   (c7_error_taxonomy cw7_svc (AgentProcessor.new 0) "t" [] ⟨"m"⟩ true 0).2
     (.provider cw7_err) ⟨1, rfl⟩ rfl⟩

/-- Claim C10: the processor's `AbortController` is created once per
instance and never replaced: `runIteration` returns with the processor
state unchanged, every executor call it makes carries the identity of that
one controller's signal, and aborting is terminal — `abort` keeps the
identity, sets the flag, and aborting again changes nothing. -/
theorem c10_shared_abort_signal {α : Type}
    (svc : CallArgs → Nat → Except ProviderError α)
    (proc : AgentProcessor) (taskId : String) (messages : List Message)
    (model : ModelDescriptor) (shouldSummarize : Bool) (now : Nat)
    (c : AbortController) (freshId : Nat) :
    (runIteration svc proc taskId messages model shouldSummarize now).finalState
      = proc ∧
    (∀ call ∈ (runIteration svc proc taskId messages model shouldSummarize
        now).calls, call.1.signal = proc.abortController.id) ∧
    AbortController.abort c = ⟨c.id, true⟩ ∧
    (AbortController.abort c).aborted = true ∧
    AbortController.abort (AbortController.abort c) = AbortController.abort c ∧
    (AgentProcessor.new freshId).abortController = ⟨freshId, false⟩ := by
  refine ⟨?_, ?_, rfl, rfl, rfl, rfl⟩
  · cases hr1 : (generateWithRetry (svc (primaryArgs proc messages model))
        defaultMaxRetries).outcome with
    | error e => simp [runIteration, hr1]
    | ok u => cases shouldSummarize <;> simp [runIteration, hr1]
  · intro call hcall
    cases hr1 : (generateWithRetry (svc (primaryArgs proc messages model))
        defaultMaxRetries).outcome with
    | error e =>
      simp [runIteration, hr1] at hcall
      rw [hcall]
      rfl
    | ok u =>
      cases shouldSummarize with
      | false =>
        simp [runIteration, hr1] at hcall
        rw [hcall]
        rfl
      | true =>
        simp [runIteration, hr1] at hcall
        rcases hcall with hcall | hcall <;> (rw [hcall]; rfl)

theorem c10_shared_abort_signal_witness :
    (runIteration cw10_svc (AgentProcessor.new 7) "t" [] ⟨"m"⟩ true 0).finalState
      = AgentProcessor.new 7 ∧
    (primaryArgs (AgentProcessor.new 7) [] ⟨"m"⟩).signal
      = (AgentProcessor.new 7).abortController.id ∧
    (summaryArgs (AgentProcessor.new 7) "t" [] ⟨"m"⟩ 0).signal
      = (AgentProcessor.new 7).abortController.id ∧
    AbortController.abort (AbortController.abort ⟨7, false⟩)
      = AbortController.abort ⟨7, false⟩ :=
  ⟨(c10_shared_abort_signal cw10_svc (AgentProcessor.new 7) "t" [] ⟨"m"⟩ true 0
      ⟨7, false⟩ 7).1,
   (c10_shared_abort_signal cw10_svc (AgentProcessor.new 7) "t" [] ⟨"m"⟩ true 0
      ⟨7, false⟩ 7).2.1
     (primaryArgs (AgentProcessor.new 7) [] ⟨"m"⟩,
       generateWithRetry (cw10_svc (primaryArgs (AgentProcessor.new 7) [] ⟨"m"⟩))
         defaultMaxRetries)
     (by
       have hr : (generateWithRetry (cw10_svc (primaryArgs (AgentProcessor.new 7)
           [] ⟨"m"⟩)) defaultMaxRetries).outcome = .ok 0 := rfl
       simp [runIteration, hr]),
   (c10_shared_abort_signal cw10_svc (AgentProcessor.new 7) "t" [] ⟨"m"⟩ true 0
      ⟨7, false⟩ 7).2.1
     (summaryArgs (AgentProcessor.new 7) "t" [] ⟨"m"⟩ 0,
       generateWithRetry (cw10_svc (summaryArgs (AgentProcessor.new 7) "t" [] ⟨"m"⟩ 0))
         defaultMaxRetries)
     (by
       have hr : (generateWithRetry (cw10_svc (primaryArgs (AgentProcessor.new 7)
           [] ⟨"m"⟩)) defaultMaxRetries).outcome = .ok 0 := rfl
       simp [runIteration, hr]),
   (c10_shared_abort_signal cw10_svc (AgentProcessor.new 7) "t" [] ⟨"m"⟩ true 0
      ⟨7, false⟩ 7).2.2.2.2.1⟩

end Bytebot
